/-
Verification of the Agentic Honey-Pot core (scam classifier, intelligence
extractor, engagement agent, session orchestration).

Shallow embedding conventions:
  - Python strings are embedded as `List Char` with ASCII semantics for the
    character classes the code relies on (`\w`, `\d`, `\s`, upper/lower case).
  - Python floats are embedded as exact rationals `ℚ`; every score the
    classifier produces is an exact multiple of 1/100, so `round(x, 2)` and
    the 0.5 threshold comparisons are faithfully captured.
  - `re.findall` is embedded per pattern with Python's leftmost scan and
    greedy backtracking priority made explicit.
  - `random.choice` inside the strategy selector is embedded by returning the
    list of possible outcomes; the randomized reply synthesizer is embedded as
    an oracle parameter (the claims under check quantify over it).
  - `list(set(xs))` is embedded as `List.dedup` (membership-preserving,
    duplicate-free; Python's set iteration order is unspecified).
-/
import Mathlib

namespace HoneyPot

/-! ## Python string primitives -/

/-- Python `\w` (word character), ASCII fragment: alphanumeric or underscore. -/
def isPyWordChar (c : Char) : Bool := c.isAlphanum || c = '_'

/-- Python `\s` (whitespace), ASCII fragment: space, tab, newline, carriage
return, vertical tab, form feed. -/
def isPyWhitespace (c : Char) : Bool :=
  c = ' ' || c = '\t' || c = '\n' || c = '\r' || c = '\x0b' || c = '\x0c'

/-- Python `str.lower`, ASCII fragment. -/
def pyLower (s : List Char) : List Char := s.map Char.toLower

/-- Python `needle in hay` substring test. -/
def containsSub (needle : List Char) : List Char → Bool
  | [] => needle.isEmpty
  | c :: rest => needle.isPrefixOf (c :: rest) || containsSub needle rest

/-- Python `str.strip()` (strip leading and trailing whitespace). -/
def pyStrip (s : List Char) : List Char :=
  ((s.dropWhile isPyWhitespace).reverse.dropWhile isPyWhitespace).reverse

/-- Python `xs[-n:]` on a list of length ≥ n: the last `n` elements. -/
def lastN (n : Nat) (xs : List Char) : List Char := xs.drop (xs.length - n)

/-- Python `s.replace(' ', '_')`. -/
def underscoreSpaces (s : List Char) : List Char :=
  s.map (fun c => if c = ' ' then '_' else c)

/-- Python `s.split()`: split on whitespace runs, discarding empty pieces.
(`List.splitOnP` keeps empty pieces between adjacent separators; Python
drops them.) -/
def pySplit (s : List Char) : List (List Char) :=
  (s.splitOnP isPyWhitespace).filter (fun w => !w.isEmpty)

/-- Python `list(set(xs))`: deduplicate (iteration order unspecified in
Python; modelled as first-occurrence order). -/
def pySet (xs : List (List Char)) : List (List Char) := xs.dedup

/-! ## Signal classifier (`scam_detector.py`, class `ScamDetector`) -/

/-- `ScamDetector.urgency_keywords`. -/
def urgencyKeywords : List (List Char) :=
  ["urgent", "immediately", "right now", "expire", "expires", "expired",
   "today only", "limited time", "act now", "hurry", "quick", "deadline",
   "suspend", "suspended", "blocked", "block", "freeze", "frozen"].map String.toList

/-- `ScamDetector.threat_keywords`. -/
def threatKeywords : List (List Char) :=
  ["account blocked", "account suspended", "legal action", "arrest",
   "police", "law enforcement", "penalty", "fine", "criminal",
   "lawsuit", "court", "jail", "prison", "warrant"].map String.toList

/-- `ScamDetector.request_keywords`. -/
def requestKeywords : List (List Char) :=
  ["verify", "confirm", "update", "share", "send", "provide",
   "click here", "link", "download", "install", "open attachment",
   "enter password", "enter pin", "enter otp", "card details",
   "cvv", "expire date"].map String.toList

/-- `ScamDetector.financial_keywords`. -/
def financialKeywords : List (List Char) :=
  ["bank account", "credit card", "debit card", "upi", "paytm",
   "phone pe", "google pay", "net banking", "ifsc", "account number",
   "cvv", "pin", "password", "otp", "transfer money", "refund",
   "cashback", "reward", "prize", "won", "lottery", "winner"].map String.toList

/-- `ScamDetector.impersonation_keywords`. -/
def impersonationKeywords : List (List Char) :=
  ["we are from", "calling from", "representative", "customer care",
   "support team", "security team", "fraud department", "bank official",
   "government", "tax department", "income tax", "rbi", "sebi"].map String.toList

/-- `sum(1 for keyword in kws if keyword in ml)`. -/
def countHits (kws : List (List Char)) (ml : List Char) : Nat :=
  (kws.filter (fun kw => containsSub kw ml)).length

/-- `re.search(r'https?://[^\s]+|www\.[^\s]+', message)` as a Boolean: some
position starts `http://`, `https://` or `www.` followed by at least one
non-whitespace character.  (The pattern is compiled without `re.IGNORECASE`
and is run on the raw, non-lowercased message.)  `headIsNonSpace` expresses
that the greedy `[^\s]+` tail can consume at least one character. -/
def headIsNonSpace : List Char → Bool
  | d :: _ => !isPyWhitespace d
  | [] => false

/-- See `headIsNonSpace` above: the URL-presence check of `analyze`. -/
def containsUrlSignal : List Char → Bool
  | [] => false
  | c :: rest =>
    (("http://".toList.isPrefixOf (c :: rest) && headIsNonSpace ((c :: rest).drop 7)) ||
     ("https://".toList.isPrefixOf (c :: rest) && headIsNonSpace ((c :: rest).drop 8)) ||
     ("www.".toList.isPrefixOf (c :: rest) && headIsNonSpace ((c :: rest).drop 4))) ||
    containsUrlSignal rest

/-- `re.search(r'[!?]{2,}', message)` as a Boolean: two adjacent characters
drawn from `!`/`?`. -/
def hasRepeatedPunct : List Char → Bool
  | c :: d :: rest =>
    ((c = '!' || c = '?') && (d = '!' || d = '?')) || hasRepeatedPunct (d :: rest)
  | _ => false

/-- Python `str.isupper`: at least one cased character and no lowercase cased
character (ASCII fragment). -/
def pyIsUpper (s : List Char) : Bool :=
  let cased := s.filter (fun c => c.isUpper || c.isLower)
  !cased.isEmpty && cased.all Char.isUpper

/-- `ScamDetector._has_poor_grammar`. -/
def hasPoorGrammar (message : List Char) : Bool :=
  if hasRepeatedPunct message then true
  else if 10 < message.length && pyIsUpper message then true
  else
    let words := pySplit message
    if 5 < words.length then
      let capitalized := (words.filter (fun w => (w.headD ' ').isUpper)).length
      decide ((words.length : ℚ) * (7/10) < (capitalized : ℚ))
    else false

/-- Sensitive-data request check of `analyze`. -/
def sensitivePatterns : List (List Char) :=
  ["otp", "cvv", "pin", "password", "card number"].map String.toList

/-- Cold-approach phrases of `analyze` (checked only on an empty history). -/
def coldApproachPhrases : List (List Char) :=
  ["we are from", "calling from", "this is"].map String.toList

/-- One keyword-category contribution to the running confidence score:
`min(hits * weight, cap)` when any hit, else nothing
(`if count > 0: confidence_score += min(count * w, cap)`). -/
def contrib (count : Nat) (w cap : ℚ) : ℚ :=
  if 0 < count then min ((count : ℚ) * w) cap else 0

/-- A fixed contribution added once when a Boolean check fires. -/
def flagScore (b : Bool) (w : ℚ) : ℚ := if b then w else 0

/-- The raw (pre-clamp) confidence accumulation of `ScamDetector.analyze`,
in source order.  The imperative single pass is split into this score
accumulation and `indicatorsOf` below; each category's guard is computed
identically in both. -/
def rawScore (message ml : List Char) (history : List (List Char)) : ℚ :=
  contrib (countHits urgencyKeywords ml) 0.15 0.3 +
  contrib (countHits threatKeywords ml) 0.2 0.4 +
  contrib (countHits requestKeywords ml) 0.1 0.25 +
  contrib (countHits financialKeywords ml) 0.12 0.3 +
  contrib (countHits impersonationKeywords ml) 0.15 0.35 +
  flagScore (containsUrlSignal message) 0.25 +
  flagScore (sensitivePatterns.any (fun p => containsSub p ml)) 0.35 +
  flagScore (history.isEmpty && coldApproachPhrases.any (fun p => containsSub p ml)) 0.2 +
  flagScore (hasPoorGrammar message) 0.1

/-- The indicator list of `ScamDetector.analyze`, appended in source order. -/
def indicatorsOf (message ml : List Char) (history : List (List Char)) : List (List Char) :=
  (if 0 < countHits urgencyKeywords ml then ["urgency_tactics".toList] else []) ++
  (if 0 < countHits threatKeywords ml then ["threatening_language".toList] else []) ++
  (if 0 < countHits requestKeywords ml then ["suspicious_requests".toList] else []) ++
  (if 0 < countHits financialKeywords ml then ["financial_focus".toList] else []) ++
  (if 0 < countHits impersonationKeywords ml then ["impersonation_attempt".toList] else []) ++
  (if containsUrlSignal message then ["contains_links".toList] else []) ++
  (if sensitivePatterns.any (fun p => containsSub p ml) then ["requests_sensitive_data".toList] else []) ++
  (if history.isEmpty && coldApproachPhrases.any (fun p => containsSub p ml) then ["unsolicited_contact".toList] else []) ++
  (if hasPoorGrammar message then ["poor_grammar".toList] else [])

/-- `ScamDetector._generate_notes`. -/
def generateNotes (indicators : List (List Char)) : List Char :=
  if indicators.isEmpty then "No significant scam indicators detected".toList
  else
    let parts :=
      (if indicators.contains "urgency_tactics".toList then ["Uses urgency to pressure victim".toList] else []) ++
      (if indicators.contains "threatening_language".toList then ["Employs threats or intimidation".toList] else []) ++
      (if indicators.contains "suspicious_requests".toList then ["Requests sensitive actions".toList] else []) ++
      (if indicators.contains "financial_focus".toList then ["Focuses on financial information".toList] else []) ++
      (if indicators.contains "impersonation_attempt".toList then ["Attempts to impersonate authority".toList] else []) ++
      (if indicators.contains "contains_links".toList then ["Contains potentially malicious links".toList] else []) ++
      (if indicators.contains "requests_sensitive_data".toList then ["Directly requests sensitive data (OTP/PIN/CVV)".toList] else []) ++
      (if indicators.contains "unsolicited_contact".toList then ["Unsolicited contact from unknown source".toList] else []) ++
      (if indicators.contains "poor_grammar".toList then ["Exhibits poor grammar/formatting".toList] else [])
    List.intercalate "; ".toList parts

/-- Python `round(q, 2)` on the values this program produces.  Every
confidence score is an exact multiple of 1/100 (see `Centi` below), where
every rounding convention — including Python's round-half-to-even — is the
identity; the floor form fixes one convention total on ℚ. -/
def pyRound2 (q : ℚ) : ℚ := (⌊q * 100 + 1/2⌋ : ℚ) / 100

/-- Result record of `ScamDetector.analyze`. -/
structure AnalysisResult where
  is_scam : Bool
  confidence : ℚ
  indicators : List (List Char)
  notes : List Char
  deriving Repr, DecidableEq

/-- Request metadata (`channel` / `language` / `locale`); `analyze` never
reads it. -/
abbrev Metadata := List (List Char × List Char)

/-- `ScamDetector.analyze`. -/
def analyze (message : List Char) (history : List (List Char)) (_metadata : Metadata) :
    AnalysisResult :=
  let ml := pyLower message
  let indicators := indicatorsOf message ml history
  let score := min (rawScore message ml history) 1
  { is_scam := decide ((0.5 : ℚ) ≤ score) || decide (3 ≤ indicators.length)
    confidence := pyRound2 score
    indicators := indicators
    notes := generateNotes indicators }

/-! ## Intelligence extractor (`intelligence_extractor.py`) -/

/-- A message record ({sender, text, timestamp}). -/
structure Msg where
  sender : List Char
  text : List Char
  timestamp : List Char
  deriving Repr, DecidableEq

/-- The five-set intelligence record. -/
structure Intelligence where
  bankAccounts : List (List Char)
  upiIds : List (List Char)
  phishingLinks : List (List Char)
  phoneNumbers : List (List Char)
  suspiciousKeywords : List (List Char)
  deriving Repr, DecidableEq

/-- `IntelligenceExtractor.suspicious_keywords`. -/
def suspiciousKeywordList : List (List Char) :=
  ["urgent", "immediate", "verify", "confirm", "blocked", "suspended",
   "expire", "deadline", "penalty", "fine", "arrest", "legal action",
   "click here", "download", "install", "otp", "cvv", "pin",
   "password", "account number", "card details", "transfer money",
   "refund", "cashback", "prize", "lottery", "winner", "reward",
   "tax refund", "government", "bank official", "customer care"].map String.toList

/-- `\b` between an optional previous character and an optional current one:
exactly one side is a word character (out-of-range counts as non-word). -/
def wordBoundary (prev cur : Option Char) : Bool :=
  (match prev with | some c => isPyWordChar c | none => false) !=
  (match cur with | some c => isPyWordChar c | none => false)

/-- Generic `re.findall` driver: try a match at each position from the left;
on success emit the match and resume right after it, otherwise advance one
character.  `prev` carries the character before the current position for the
`\b` assertions.  Every `matchAt` below consumes at least one character, so a
fuel of `length + 1` is never exhausted. -/
def findAllAux (matchAt : Option Char → List Char → Option (List Char × List Char)) :
    Nat → Option Char → List Char → List (List Char)
  | 0, _, _ => []
  | _ + 1, _, [] => []
  | fuel + 1, prev, c :: rest =>
    match matchAt prev (c :: rest) with
    | some (m, r) => m :: findAllAux matchAt fuel m.getLast? r
    | none => findAllAux matchAt fuel (some c) rest

/-- Character class `[\w\.\-]` of the UPI pattern. -/
def isUpiLocalChar (c : Char) : Bool := isPyWordChar c || c = '.' || c = '-'

/-- One attempted match of `r'\b[\w\.\-]+@[\w]+\b'` (the UPI pattern) at the
current position.  Both `+` runs are greedy; since `@` is outside the first
class and the trailing `\b` demands a non-word successor, only the maximal
runs can complete a match, so no explicit backtracking is needed. -/
def upiMatchAt (prev : Option Char) (s : List Char) : Option (List Char × List Char) :=
  let run1 := s.takeWhile isUpiLocalChar
  if run1.isEmpty then none
  else if !wordBoundary prev s.head? then none
  else
    match s.drop run1.length with
    | '@' :: rest2 =>
      let run2 := rest2.takeWhile isPyWordChar
      if run2.isEmpty then none
      else some (run1 ++ '@' :: run2, rest2.drop run2.length)
    | _ => none

/-- `re.findall` for the UPI pattern (`re.IGNORECASE` is immaterial: every
class in the pattern is closed under case). -/
def upiFindAll (s : List Char) : List (List Char) :=
  findAllAux upiMatchAt (s.length + 1) none s

/-- One attempted match of `r'\b\d{9,18}\b'` (the bank-account pattern).
Greedy `\d{9,18}` with both boundaries: any take shorter than the full digit
run leaves a digit (a word character) adjacent, so a match exists exactly
when the maximal digit run has length 9–18 and non-word characters on both
sides. -/
def accountMatchAt (prev : Option Char) (s : List Char) : Option (List Char × List Char) :=
  let run := s.takeWhile Char.isDigit
  if run.isEmpty then none
  else if !wordBoundary prev s.head? then none
  else
    let rest := s.drop run.length
    if 9 ≤ run.length && run.length ≤ 18 &&
        !(match rest.head? with | some c => isPyWordChar c | none => false) then
      some (run, rest)
    else none

/-- `re.findall` for the bank-account pattern. -/
def accountFindAll (s : List Char) : List (List Char) :=
  findAllAux accountMatchAt (s.length + 1) none s

/-- One attempted match of `r'\b[A-Z]{4}0[A-Z0-9]{6}\b'` (the IFSC pattern,
fixed length 11, no backtracking). -/
def ifscMatchAt (prev : Option Char) (s : List Char) : Option (List Char × List Char) :=
  match s with
  | c1 :: c2 :: c3 :: c4 :: c5 :: c6 :: c7 :: c8 :: c9 :: c10 :: c11 :: rest =>
    if [c1, c2, c3, c4].all Char.isUpper && c5 = '0' &&
        [c6, c7, c8, c9, c10, c11].all (fun c => c.isUpper || c.isDigit) &&
        wordBoundary prev (some c1) &&
        !(match rest.head? with | some c => isPyWordChar c | none => false) then
      some ([c1, c2, c3, c4, c5, c6, c7, c8, c9, c10, c11], rest)
    else none
  | _ => none

/-- `re.findall` for the IFSC pattern. -/
def ifscFindAll (s : List Char) : List (List Char) :=
  findAllAux ifscMatchAt (s.length + 1) none s

/-! Pieces for patterns that do need backtracking.  A piece maps the
remaining input to the candidate lengths it may consume, in Python's
backtracking priority order (greedy: longest first); `chainPieces` runs a
piece list depth-first, returning the total length of the first successful
assignment — exactly a backtracking regex engine for concatenations. -/

/-- An optional single-character piece `X?` (greedy: presence first). -/
def optChar (p : Char → Bool) (s : List Char) : List Nat :=
  match s with
  | c :: _ => if p c then [1, 0] else [0]
  | [] => [0]

/-- A greedy counted class piece `C{lo,hi}`: candidate lengths from
`min(run, hi)` down to `lo`. -/
def classBetween (lo hi : Nat) (p : Char → Bool) (s : List Char) : List Nat :=
  let run := (s.takeWhile p).length
  (List.range' lo (min run hi + 1 - lo)).reverse

/-- A greedy unbounded class piece `C+`: candidate lengths from the maximal
run down to 1. -/
def classPlus (p : Char → Bool) (s : List Char) : List Nat :=
  let run := (s.takeWhile p).length
  (List.range' 1 run).reverse

/-- A greedy unbounded class piece `C*`: candidate lengths from the maximal
run down to 0. -/
def classStar (p : Char → Bool) (s : List Char) : List Nat :=
  let run := (s.takeWhile p).length
  (List.range' 0 (run + 1)).reverse

/-- A literal piece, matched case-insensitively (`lit` is given lowercase). -/
def litCI (lit : List Char) (s : List Char) : List Nat :=
  if (s.take lit.length).map Char.toLower = lit then [lit.length] else []

/-- A single-character literal piece. -/
def litChar (c : Char) (s : List Char) : List Nat :=
  match s with
  | d :: _ => if d = c then [1] else []
  | [] => []

/-- Depth-first concatenation of pieces in priority order; returns the total
consumed length of the first complete match. -/
def chainPieces : List (List Char → List Nat) → List Char → Option Nat
  | [], _ => some 0
  | p :: ps, s =>
    (p s).foldl
      (fun acc k =>
        match acc with
        | some m => some m
        | none => (chainPieces ps (s.drop k)).map (k + ·))
      none

/-- Separator class `[-.\s]` of the phone pattern. -/
def isPhoneSepChar (c : Char) : Bool := c = '-' || c = '.' || isPyWhitespace c

/-- The piece sequence of the phone pattern
`r'\+?\d{1,3}[-.\s]?\(?\d{1,4}\)?[-.\s]?\d{1,4}[-.\s]?\d{1,9}'`. -/
def phonePieces : List (List Char → List Nat) :=
  [optChar (· = '+'),
   classBetween 1 3 Char.isDigit,
   optChar isPhoneSepChar,
   optChar (· = '('),
   classBetween 1 4 Char.isDigit,
   optChar (· = ')'),
   optChar isPhoneSepChar,
   classBetween 1 4 Char.isDigit,
   optChar isPhoneSepChar,
   classBetween 1 9 Char.isDigit]

/-- One attempted match of the phone pattern (no boundary assertions; every
match consumes at least the four mandatory digits). -/
def phoneMatchAt (_prev : Option Char) (s : List Char) : Option (List Char × List Char) :=
  match chainPieces phonePieces s with
  | some k => some (s.take k, s.drop k)
  | none => none

/-- `re.findall` for the phone pattern. -/
def phoneFindAll (s : List Char) : List (List Char) :=
  findAllAux phoneMatchAt (s.length + 1) none s

/-- Host class `[a-z0-9\-]` of the bare-domain URL alternative, with
`re.IGNORECASE`. -/
def isUrlHostChar (c : Char) : Bool := c.isAlpha || c.isDigit || c = '-'

/-- One attempted match of the URL pattern
`r'https?://[^\s]+|www\.[^\s]+|[a-z0-9\-]+\.[a-z]{2,}[^\s]*'` with
`re.IGNORECASE`: the three alternatives are tried in order at each position. -/
def urlMatchAt (_prev : Option Char) (s : List Char) : Option (List Char × List Char) :=
  let nonSpace := fun c => !isPyWhitespace c
  let alt1 := chainPieces
    [litCI "http".toList, optChar (fun c => c.toLower = 's'), litCI "://".toList,
     classPlus nonSpace] s
  let alt2 := chainPieces [litCI "www.".toList, classPlus nonSpace] s
  let alt3 := chainPieces
    [classPlus isUrlHostChar, litChar '.', classBetween 2 s.length Char.isAlpha,
     classStar nonSpace] s
  match alt1 with
  | some k => some (s.take k, s.drop k)
  | none =>
    match alt2 with
    | some k => some (s.take k, s.drop k)
    | none =>
      match alt3 with
      | some k => if k = 0 then none else some (s.take k, s.drop k)
      | none => none

/-- `re.findall` for the URL pattern. -/
def urlFindAll (s : List Char) : List (List Char) :=
  findAllAux urlMatchAt (s.length + 1) none s

/-- `IntelligenceExtractor._clean_and_validate_upi`; `s.split('@')[-1]` is
the segment after the last `@`. -/
def afterLastAtSign (s : List Char) : List Char :=
  (s.reverse.takeWhile (· ≠ '@')).reverse

/-- `valid_providers` of `_clean_and_validate_upi`. -/
def validProviders : List (List Char) :=
  ["paytm", "phonepe", "googlepay", "ybl", "okaxis",
   "oksbi", "okicici", "okhdfc", "upi", "apl", "axl"].map String.toList

/-- `IntelligenceExtractor._clean_and_validate_upi`. -/
def cleanAndValidateUpi (upiMatches : List (List Char)) : List (List Char) :=
  upiMatches.filterMap (fun upi0 =>
    let upi := pyStrip upi0
    if upi.contains '@' ∧ 5 < upi.length then
      let provider := pyLower (afterLastAtSign upi)
      if validProviders.any (fun p => containsSub p provider) ∨ provider.length ≤ 10 then
        some upi
      else none
    else none)

/-- The canonical-form step of `_clean_and_validate_phones` (applied to the
digit string once its length is known to be 10–15). -/
def formatPhone (digits : List Char) : List Char :=
  if "91".toList.isPrefixOf digits ∧ digits.length = 12 then
    "+91".toList ++ digits.drop 2
  else if "0".toList.isPrefixOf digits ∧ digits.length = 11 then
    "+91".toList ++ digits.drop 1
  else if digits.length = 10 then "+91".toList ++ digits
  else '+' :: digits

/-- `IntelligenceExtractor._clean_and_validate_phones`. -/
def cleanAndValidatePhones (phoneMatches : List (List Char)) : List (List Char) :=
  phoneMatches.filterMap (fun phone =>
    let digits := phone.filter Char.isDigit
    if 10 ≤ digits.length ∧ digits.length ≤ 15 then some (formatPhone digits)
    else none)

/-- The masking step of `_clean_and_validate_accounts`
(`clean[:4] + '*'*(len-8) + clean[-4:]` when the length exceeds 8, else
`clean[:4] + '*'*(len-4)`). -/
def maskAccount (clean : List Char) : List Char :=
  if 8 < clean.length then
    clean.take 4 ++ List.replicate (clean.length - 8) '*' ++ lastN 4 clean
  else clean.take 4 ++ List.replicate (clean.length - 4) '*'

/-- `IntelligenceExtractor._clean_and_validate_accounts`. -/
def cleanAndValidateAccounts (accountMatches : List (List Char)) : List (List Char) :=
  accountMatches.filterMap (fun account =>
    let clean := account.filter Char.isDigit
    if 9 ≤ clean.length ∧ clean.length ≤ 18 then some (maskAccount clean)
    else none)

/-- The trailing-punctuation strip `re.sub(r'[.,;!?]+$', '', url)`. -/
def dropTrailingPunct (s : List Char) : List Char :=
  (s.reverse.dropWhile (fun c => c = '.' || c = ',' || c = ';' || c = '!' || c = '?')).reverse

/-- `IntelligenceExtractor._clean_and_validate_urls`.  (In the source, both
branches of the scheme check prepend `http://`.) -/
def cleanAndValidateUrls (urlMatches : List (List Char)) : List (List Char) :=
  urlMatches.filterMap (fun url0 =>
    let url1 := dropTrailingPunct (pyStrip url0)
    let url2 :=
      if "http://".toList.isPrefixOf url1 || "https://".toList.isPrefixOf url1 then url1
      else "http://".toList ++ url1
    if url2.contains '.' ∧ 5 < url2.length then some url2 else none)

/-- `IntelligenceExtractor._extract_contextual_intelligence`: a dict with all
five keys, four of them always empty, `suspiciousKeywords` holding only the
synthetic tags, appended in source order. -/
def extractContextualIntelligence (text : List Char) : Intelligence :=
  let tl := pyLower text
  let hit := fun (ws : List String) => ws.any (fun w => containsSub w.toList tl)
  let kws :=
    (if hit ["tax refund", "income tax", "refund pending"] then
      ["tax_refund_scam".toList, "government_impersonation".toList] else []) ++
    (if hit ["won prize", "lottery", "winner", "congratulations"] then
      ["lottery_scam".toList, "prize_scam".toList] else []) ++
    (if hit ["account blocked", "account suspended", "kyc pending"] then
      ["account_block_scam".toList, "bank_impersonation".toList] else []) ++
    (if hit ["share otp", "tell otp", "send otp"] then
      ["otp_fraud".toList, "credential_theft".toList] else []) ++
    (if hit ["click link", "open link", "visit website"] then
      ["phishing_attempt".toList, "malicious_link".toList] else []) ++
    (if hit ["transfer to", "send money to", "pay to"] then
      ["payment_redirection".toList, "money_transfer_scam".toList] else []) ++
    ((["paytm", "phonepe", "google pay", "gpay", "bhim", "whatsapp pay"].map String.toList).filter
        (fun app => containsSub app tl)).map
      (fun app => "uses_".toList ++ underscoreSpaces app) ++
    ((["bank", "police", "income tax", "government", "customer care",
       "security team", "fraud department", "cyber cell"].map String.toList).filter
        (fun tgt => containsSub tgt tl)).map
      (fun tgt => "impersonates_".toList ++ underscoreSpaces tgt)
  { bankAccounts := [], upiIds := [], phishingLinks := [], phoneNumbers := [],
    suspiciousKeywords := kws }

/-- Python `intelligence.update(additional)` where `additional` carries all
five keys (as `_extract_contextual_intelligence` always does): every field of
the first dict is overwritten by the second's. -/
def dictUpdate (_intelligence additional : Intelligence) : Intelligence :=
  { bankAccounts := additional.bankAccounts
    upiIds := additional.upiIds
    phishingLinks := additional.phishingLinks
    phoneNumbers := additional.phoneNumbers
    suspiciousKeywords := additional.suspiciousKeywords }

/-- The final per-key `list(set(...))` of `extract`. -/
def dedupIntelligence (i : Intelligence) : Intelligence :=
  { bankAccounts := pySet i.bankAccounts
    upiIds := pySet i.upiIds
    phishingLinks := pySet i.phishingLinks
    phoneNumbers := pySet i.phoneNumbers
    suspiciousKeywords := pySet i.suspiciousKeywords }

/-- The analysis buffer of `extract`: the space-joined texts of the messages
attributed to the scammer, then `" " + latest_message`. -/
def allTextOf (conversation : List Msg) (latestMessage : List Char) : List Char :=
  List.intercalate [' ']
    (conversation.filterMap (fun m =>
      if m.sender = "scammer".toList then some m.text else none)) ++
  (' ' :: latestMessage)

/-- `IntelligenceExtractor.extract`. -/
def extract (conversation : List Msg) (latestMessage : List Char) : Intelligence :=
  let all_text := allTextOf conversation latestMessage
  let intelligence : Intelligence :=
    { upiIds := cleanAndValidateUpi (upiFindAll all_text)
      phoneNumbers := cleanAndValidatePhones (phoneFindAll all_text)
      bankAccounts :=
        cleanAndValidateAccounts (accountFindAll all_text) ++
        (ifscFindAll all_text).map (fun ifsc => "IFSC:".toList ++ ifsc)
      phishingLinks := cleanAndValidateUrls (urlFindAll all_text)
      suspiciousKeywords :=
        pySet (suspiciousKeywordList.filter (fun kw => containsSub kw (pyLower all_text))) }
  dedupIntelligence (dictUpdate intelligence (extractContextualIntelligence all_text))

/-! ## Engagement agent (`ai_agent.py`, class `ScamEngagementAgent`) -/

/-- `payment_triggers` of `_determine_strategy`. -/
def paymentTriggers : List (List Char) :=
  ["payment", "money", "transfer", "upi", "account", "refund", "pin", "otp", "pay"].map
    String.toList

/-- `link_triggers` of `_determine_strategy`. -/
def linkTriggers : List (List Char) :=
  ["click", "link", "download", "install", "website"].map String.toList

/-- `ScamEngagementAgent._determine_strategy`, modelled by the list of its
possible outcomes: the returned
list enumerates the possible strategy tags (a `random.choice([...])` in the
source is embedded as its candidate list; a deterministic `return` as a
singleton).  The actual run always returns some element of this list. -/
def determineStrategy (incomingMessage : List Char) (messageCount : Nat) : List (List Char) :=
  let ml := pyLower incomingMessage
  let pay := paymentTriggers.any (fun w => containsSub w ml)
  let link := linkTriggers.any (fun w => containsSub w ml)
  if messageCount ≤ 2 then
    if pay then ["request_payment_details".toList]
    else if (["urgent", "immediately", "block"].map String.toList).any
        (fun w => containsSub w ml) then
      ["express_confusion".toList, "play_along".toList]
    else ["ask_for_details".toList, "play_along".toList]
  else if messageCount ≤ 5 then
    if (["verify", "confirm"].map String.toList).any (fun w => containsSub w ml) then
      ["play_along".toList, "request_verification".toList]
    else if pay then ["request_payment_details".toList]
    else if link then ["play_along".toList]
    else ["play_along".toList, "ask_for_details".toList, "show_urgency".toList]
  else
    if pay then ["request_payment_details".toList]
    else if link then ["play_along".toList]
    else ["play_along".toList, "show_urgency".toList, "ask_for_details".toList]

/-- A conversation session (`sessions[session_id]` in `main.py`). -/
structure Session where
  messages : List Msg
  scam_detected : Bool
  confidence_score : ℚ
  intelligence : Intelligence
  agent_notes : List (List Char)
  created_at : List Char
  deriving Repr, DecidableEq

/-- The six `suspicious_phrases` of `should_end_conversation`. -/
def suspiciousPhrases : List (List Char) :=
  ["you are wasting my time", "stop asking questions", "just do it",
   "are you stupid", "why so many questions", "this is your last chance"].map String.toList

/-- The reverse scan of `should_end_conversation`: the lowered text of the
last message in `recent_messages` whose sender is `"scammer"`. -/
def lastScammerTextLower (recentMessages : List Msg) : Option (List Char) :=
  (recentMessages.reverse.find? (fun m => m.sender = "scammer".toList)).map
    (fun m => pyLower m.text)

/-- `ScamEngagementAgent.should_end_conversation`. -/
def shouldEndConversation (session : Session) (recentMessages : List Msg) : Bool :=
  let messageCount := session.messages.length
  let intelligence := session.intelligence
  if 20 ≤ messageCount then true
  else
    let hasPaymentInfo :=
      decide (0 < intelligence.upiIds.length) ||
      decide (0 < intelligence.bankAccounts.length) ||
      decide (0 < intelligence.phoneNumbers.length) ||
      decide (0 < intelligence.phishingLinks.length)
    let intelTypesCount :=
      ([intelligence.upiIds, intelligence.bankAccounts, intelligence.phoneNumbers,
        intelligence.phishingLinks].filter (fun l => 0 < l.length)).length
    if hasPaymentInfo && decide (2 ≤ intelTypesCount) && decide (12 ≤ messageCount) then true
    else
      match lastScammerTextLower recentMessages with
      | some textLower => suspiciousPhrases.any (fun p => containsSub p textLower)
      | none => false

/-! ## Orchestrator (`main.py`) -/

/-- An incoming `/api/message` request body. -/
structure Request where
  sessionId : List Char
  message : Msg
  conversationHistory : List Msg
  metadata : Metadata
  deriving Repr, DecidableEq

/-- The response body of `/api/message`. -/
structure AgentResponse where
  status : List Char
  reply : List Char
  scamDetected : Bool
  confidenceScore : ℚ
  deriving Repr, DecidableEq

/-- The fresh session created on first reference to an unseen id
(`created_at` is the wall clock, passed in as `now`). -/
def initSession (now : List Char) : Session :=
  { messages := []
    scam_detected := false
    confidence_score := 0
    intelligence :=
      { bankAccounts := [], upiIds := [], phishingLinks := [], phoneNumbers := [],
        suspiciousKeywords := [] }
    agent_notes := []
    created_at := now }

/-- The intelligence-merge loop of `handle_message` (lines 203–208):
`session["intelligence"][key].extend(extracted[key])` then
`list(set(...))`, for each of the five keys. -/
def updateIntelligence (current extracted : Intelligence) : Intelligence :=
  { bankAccounts := pySet (current.bankAccounts ++ extracted.bankAccounts)
    upiIds := pySet (current.upiIds ++ extracted.upiIds)
    phishingLinks := pySet (current.phishingLinks ++ extracted.phishingLinks)
    phoneNumbers := pySet (current.phoneNumbers ++ extracted.phoneNumbers)
    suspiciousKeywords := pySet (current.suspiciousKeywords ++ extracted.suspiciousKeywords) }

/-- The per-session body of `handle_message`, after the get-or-create of the
session.  The reply synthesizer (`generate_response` / a templated
`generate_safe_response`) is randomized and may consult a generative backend;
it is embedded as the oracle parameter `reply` (the string the synthesizer
produced), and `now` stands for `datetime.utcnow()`.  The fire-and-forget
final-result callback touches no session state and is omitted. -/
def handleMessageSession (session : Session) (req : Request) (reply now : List Char) :
    Session × AgentResponse :=
  let session1 := { session with messages := session.messages ++ [req.message] }
  let allMessages := req.conversationHistory ++ [req.message]
  let scamResult :=
    analyze req.message.text (req.conversationHistory.map (fun m => m.text)) req.metadata
  let session2 :=
    { session1 with
        scam_detected := scamResult.is_scam
        confidence_score := scamResult.confidence }
  let extracted := extract allMessages req.message.text
  let session3 :=
    { session2 with intelligence := updateIntelligence session2.intelligence extracted }
  if scamResult.is_scam then
    let session4 :=
      if scamResult.notes.isEmpty then session3
      else { session3 with agent_notes := session3.agent_notes ++ [scamResult.notes] }
    let session5 :=
      { session4 with
          messages := session4.messages ++ [⟨"user".toList, reply, now⟩] }
    (session5,
     { status := "success".toList, reply := reply, scamDetected := true
       confidenceScore := scamResult.confidence })
  else
    (session3,
     { status := "success".toList, reply := reply, scamDetected := false
       confidenceScore := scamResult.confidence })

/-- The in-memory session store (`sessions` dict), as a key-to-session map. -/
abbrev Store : Type := List Char → Option Session

/-- The lazy get-or-create at the top of `handle_message`. -/
def getOrCreate (store : Store) (sessionId now : List Char) : Session :=
  match store sessionId with
  | some s => s
  | none => initSession now

/-- `handle_message` at the store level. -/
def handleMessage (store : Store) (req : Request) (reply now : List Char) :
    Store × AgentResponse :=
  let session := getOrCreate store req.sessionId now
  let result := handleMessageSession session req reply now
  (fun key => if key = req.sessionId then some result.1 else store key, result.2)

/-- An HTTP error surfaced by a route (`HTTPException`). -/
structure HttpError where
  statusCode : Nat
  detail : List Char
  deriving Repr, DecidableEq

/-- `delete_session` (`DELETE /api/session/{session_id}`): a present id is
removed and reported as success; an absent id raises a 404 and leaves the
store untouched. -/
def deleteSession (store : Store) (sessionId : List Char) :
    Except HttpError (List Char) × Store :=
  match store sessionId with
  | some _ =>
    (Except.ok ("Session ".toList ++ sessionId ++ " deleted".toList),
     fun key => if key = sessionId then none else store key)
  | none => (Except.error ⟨404, "Session not found".toList⟩, store)

/-! ## Concrete end-to-end data (the five-message transcript of §8 /
`test_scenarios.py`, Bank Account Block Scam scenario) -/

/-- Message 1 of the end-to-end transcript. -/
def e2eText1 : List Char :=
  "URGENT! Your bank account will be blocked in 2 hours due to suspicious activity.".toList

/-- Message 2 of the end-to-end transcript. -/
def e2eText2 : List Char :=
  "We are from State Bank security team. You need to verify your account immediately.".toList

/-- Message 3 of the end-to-end transcript. -/
def e2eText3 : List Char :=
  "Please provide your account number and registered mobile number for verification.".toList

/-- Message 4 of the end-to-end transcript. -/
def e2eText4 : List Char :=
  "Also share the OTP we just sent to your phone to confirm your identity.".toList

/-- Message 5 of the end-to-end transcript. -/
def e2eText5 : List Char :=
  "After verification, we need you to transfer Rs.1 to our security account: 1234567890@paytm".toList

/-- The transcript as the conversation list handed to `extract` (five
scammer-authored messages). -/
def e2eConversation : List Msg :=
  [⟨"scammer".toList, e2eText1, "t1".toList⟩,
   ⟨"scammer".toList, e2eText2, "t2".toList⟩,
   ⟨"scammer".toList, e2eText3, "t3".toList⟩,
   ⟨"scammer".toList, e2eText4, "t4".toList⟩,
   ⟨"scammer".toList, e2eText5, "t5".toList⟩]

/-! ## Claim-side (specification) definitions and concrete fixtures -/

/-- Scores the classifier produces are exact multiples of 1/100; on such
values Python's `round(x, 2)` is the identity and the 0.5 comparison is
exact. -/
def Centi (q : ℚ) : Prop := ∃ k : ℕ, q = (k : ℚ) / 100

/-- Claim C3's rule (3), as the claim words it: the most recent message in
`recent_messages` whose sender is the counterpart contains (matched on the
lowercased text, as the six phrases are lowercase) one of the six fixed
suspicion phrases. -/
def latestCounterpartSuspicious (recentMessages : List Msg) : Bool :=
  match recentMessages.reverse.find? (fun m => m.sender = "scammer".toList) with
  | some m => suspiciousPhrases.any (fun p => containsSub p (pyLower m.text))
  | none => false

/-- Claim C3's termination rule, as the claim words it: message count ≥ 20,
or at least two of the four payment-intelligence sets non-empty with message
count ≥ 12, or the latest counterpart message suspicious. -/
def shouldEndSpecC3 (session : Session) (recentMessages : List Msg) : Bool :=
  decide (20 ≤ session.messages.length) ||
  (decide (2 ≤ (([session.intelligence.upiIds, session.intelligence.bankAccounts,
      session.intelligence.phoneNumbers, session.intelligence.phishingLinks].filter
        (fun l => 0 < l.length)).length)) &&
   decide (12 ≤ session.messages.length)) ||
  latestCounterpartSuspicious recentMessages

/-- Claim C6's phone normalization, as the claim words it (using "the last 10
digits" where the code drops the leading digits). -/
def phoneNormSpecC6 (candidate : List Char) : List (List Char) :=
  let digits := candidate.filter Char.isDigit
  if digits.length < 10 ∨ 15 < digits.length then []
  else if digits.length = 12 ∧ "91".toList.isPrefixOf digits then
    ["+91".toList ++ lastN 10 digits]
  else if digits.length = 11 ∧ "0".toList.isPrefixOf digits then
    ["+91".toList ++ lastN 10 digits]
  else if digits.length = 10 then ["+91".toList ++ digits]
  else [('+' :: digits)]

/-- Claim C7's account masking, as the claim words it. -/
def maskSpecC7 (candidate : List Char) : List (List Char) :=
  let digits := candidate.filter Char.isDigit
  if digits.length < 9 ∨ 18 < digits.length then []
  else if 8 < digits.length then
    [digits.take 4 ++ List.replicate (digits.length - 8) '*' ++ lastN 4 digits]
  else [digits.take 4 ++ List.replicate (digits.length - 4) '*']

/-- All four payment-intelligence categories populated (fixture for C3). -/
def c3Intelligence : Intelligence :=
  { bankAccounts := ["1234****9012".toList]
    upiIds := ["1234567890@paytm".toList]
    phishingLinks := ["http://fake-bank-lottery.com/claim".toList]
    phoneNumbers := ["+919876543210".toList]
    suspiciousKeywords := ["urgent".toList] }

/-- A recorded message with no suspicion phrase (fixture for C3). -/
def c3Message : Msg := ⟨"scammer".toList, "ok tell me more".toList, "t".toList⟩

/-- A session with exactly 11 messages and all four payment-intelligence
categories populated (fixture for C3). -/
def c3Session11 : Session :=
  { messages := List.replicate 11 c3Message
    scam_detected := true
    confidence_score := 0.9
    intelligence := c3Intelligence
    agent_notes := []
    created_at := "t0".toList }

/-- The same session at 12 messages (fixture for C3). -/
def c3Session12 : Session := { c3Session11 with messages := List.replicate 12 c3Message }

/-- A store holding exactly the session id `s1` (fixture for C9's witness). -/
def c9Store : Store :=
  fun key => if key = "s1".toList then some (initSession "t0".toList) else none

/-- A session whose earlier traffic was classified as scam (fixture for C10). -/
def c10Session : Session :=
  { messages := [⟨"scammer".toList, e2eText1, "t1".toList⟩]
    scam_detected := true
    confidence_score := 0.9
    intelligence :=
      { bankAccounts := [], upiIds := [], phishingLinks := [], phoneNumbers := [],
        suspiciousKeywords := [] }
    agent_notes := []
    created_at := "t0".toList }

/-- A benign follow-up message for the session above (fixture for C10): its
classification carries no indicators, so `is_scam` is false. -/
def c10Request : Request :=
  { sessionId := "session-1".toList
    message := ⟨"scammer".toList, "hello".toList, "t2".toList⟩
    conversationHistory := [⟨"scammer".toList, e2eText1, "t1".toList⟩]
    metadata := [] }

/-- A request fixture reused by universally quantified witnesses. -/
def wRequest : Request :=
  { sessionId := "w".toList
    message := ⟨"scammer".toList, "send otp to 1234567890@paytm".toList, "t1".toList⟩
    conversationHistory := []
    metadata := [] }

/-! ## Helper lemmas -/

theorem centi_zero : Centi 0 := ⟨0, by norm_num⟩

theorem centi_one : Centi 1 := ⟨100, by norm_num⟩

theorem centi_add {p q : ℚ} (hp : Centi p) (hq : Centi q) : Centi (p + q) := by
  obtain ⟨a, rfl⟩ := hp
  obtain ⟨b, rfl⟩ := hq
  exact ⟨a + b, by push_cast; ring⟩

theorem centi_min {p q : ℚ} (hp : Centi p) (hq : Centi q) : Centi (min p q) := by
  obtain ⟨a, rfl⟩ := hp
  obtain ⟨b, rfl⟩ := hq
  rcases le_total a b with h | h
  · refine ⟨a, min_eq_left ?_⟩
    exact div_le_div_of_nonneg_right (by exact_mod_cast h) (by norm_num)
  · refine ⟨b, min_eq_right ?_⟩
    exact div_le_div_of_nonneg_right (by exact_mod_cast h) (by norm_num)

theorem centi_nat_mul (n : ℕ) {w : ℚ} (hw : Centi w) : Centi ((n : ℚ) * w) := by
  obtain ⟨a, rfl⟩ := hw
  exact ⟨n * a, by push_cast; ring⟩

theorem centi_contrib (count : ℕ) {w cap : ℚ} (hw : Centi w) (hcap : Centi cap) :
    Centi (contrib count w cap) := by
  unfold contrib
  split
  · exact centi_min (centi_nat_mul count hw) hcap
  · exact centi_zero

theorem centi_flag (b : Bool) {w : ℚ} (hw : Centi w) : Centi (flagScore b w) := by
  unfold flagScore
  split
  · exact hw
  · exact centi_zero

theorem contrib_nonneg (count : ℕ) {w cap : ℚ} (hw : 0 ≤ w) (hcap : 0 ≤ cap) :
    0 ≤ contrib count w cap := by
  unfold contrib
  split
  · exact le_min (mul_nonneg (Nat.cast_nonneg count) hw) hcap
  · exact le_refl 0

theorem flag_nonneg (b : Bool) {w : ℚ} (hw : 0 ≤ w) : 0 ≤ flagScore b w := by
  unfold flagScore
  split
  · exact hw
  · exact le_refl 0

theorem rawScore_centi (message ml : List Char) (history : List (List Char)) :
    Centi (rawScore message ml history) := by
  have c10 : Centi (0.1 : ℚ) := ⟨10, by norm_num⟩
  have c12 : Centi (0.12 : ℚ) := ⟨12, by norm_num⟩
  have c15 : Centi (0.15 : ℚ) := ⟨15, by norm_num⟩
  have c20 : Centi (0.2 : ℚ) := ⟨20, by norm_num⟩
  have c25 : Centi (0.25 : ℚ) := ⟨25, by norm_num⟩
  have c30 : Centi (0.3 : ℚ) := ⟨30, by norm_num⟩
  have c35 : Centi (0.35 : ℚ) := ⟨35, by norm_num⟩
  have c40 : Centi (0.4 : ℚ) := ⟨40, by norm_num⟩
  unfold rawScore
  refine centi_add (centi_add (centi_add (centi_add (centi_add (centi_add (centi_add
    (centi_add (centi_contrib _ c15 c30) (centi_contrib _ c20 c40))
    (centi_contrib _ c10 c25)) (centi_contrib _ c12 c30)) (centi_contrib _ c15 c35))
    (centi_flag _ c25)) (centi_flag _ c35)) (centi_flag _ c20)) (centi_flag _ c10)

theorem rawScore_nonneg (message ml : List Char) (history : List (List Char)) :
    0 ≤ rawScore message ml history := by
  unfold rawScore
  refine add_nonneg (add_nonneg (add_nonneg (add_nonneg (add_nonneg (add_nonneg (add_nonneg
    (add_nonneg (contrib_nonneg _ (by norm_num) (by norm_num))
    (contrib_nonneg _ (by norm_num) (by norm_num)))
    (contrib_nonneg _ (by norm_num) (by norm_num)))
    (contrib_nonneg _ (by norm_num) (by norm_num)))
    (contrib_nonneg _ (by norm_num) (by norm_num)))
    (flag_nonneg _ (by norm_num))) (flag_nonneg _ (by norm_num)))
    (flag_nonneg _ (by norm_num))) (flag_nonneg _ (by norm_num))

theorem pyRound2_eq_self {q : ℚ} (h : Centi q) : pyRound2 q = q := by
  obtain ⟨k, rfl⟩ := h
  unfold pyRound2
  have h100 : (k : ℚ) / 100 * 100 + 1 / 2 = (k : ℚ) + 1 / 2 := by
    field_simp
  rw [h100]
  have hfloor : ⌊(k : ℚ) + 1 / 2⌋ = (k : ℤ) := by
    rw [Int.floor_eq_iff]
    constructor
    · push_cast; linarith
    · push_cast; linarith
  rw [hfloor]
  push_cast
  ring

theorem analyze_confidence (message : List Char) (history : List (List Char))
    (metadata : Metadata) :
    (analyze message history metadata).confidence =
      min (rawScore message (pyLower message) history) 1 := by
  simp only [analyze]
  exact pyRound2_eq_self (centi_min (rawScore_centi message (pyLower message) history) centi_one)

theorem analyze_is_scam (message : List Char) (history : List (List Char))
    (metadata : Metadata) :
    (analyze message history metadata).is_scam =
      (decide ((0.5 : ℚ) ≤ min (rawScore message (pyLower message) history) 1) ||
       decide (3 ≤ (indicatorsOf message (pyLower message) history).length)) := by
  simp only [analyze]

theorem analyze_indicators (message : List Char) (history : List (List Char))
    (metadata : Metadata) :
    (analyze message history metadata).indicators =
      indicatorsOf message (pyLower message) history := by
  simp only [analyze]

theorem subset_pySet_append_left (xs ys : List (List Char)) : xs ⊆ pySet (xs ++ ys) := by
  intro a ha
  unfold pySet
  rw [List.mem_dedup]
  exact List.mem_append_left ys ha

theorem nodup_pySet (xs : List (List Char)) : (pySet xs).Nodup := List.nodup_dedup xs

theorem hms_intelligence (session : Session) (req : Request) (reply now : List Char) :
    (handleMessageSession session req reply now).1.intelligence =
      updateIntelligence session.intelligence
        (extract (req.conversationHistory ++ [req.message]) req.message.text) := by
  simp only [handleMessageSession]
  split
  · split <;> rfl
  · rfl

theorem hms_scam_fields (session : Session) (req : Request) (reply now : List Char) :
    (handleMessageSession session req reply now).1.scam_detected =
      (analyze req.message.text (req.conversationHistory.map (fun m => m.text))
        req.metadata).is_scam ∧
    (handleMessageSession session req reply now).1.confidence_score =
      (analyze req.message.text (req.conversationHistory.map (fun m => m.text))
        req.metadata).confidence := by
  constructor
  · simp only [handleMessageSession]
    split
    · split <;> rfl
    · rfl
  · simp only [handleMessageSession]
    split
    · split <;> rfl
    · rfl

/-! ## Claim theorems -/

/-- C2: for every input string, conversation history and metadata map,
`analyze` returns a confidence in [0,1], and its `is_scam` field equals
(confidence ≥ 0.5 OR the number of indicators ≥ 3); in particular, with at
least three indicators `is_scam` is true regardless of the numeric
confidence. -/
theorem C2_analyze_confidence_and_threshold (message : List Char)
    (history : List (List Char)) (metadata : Metadata) :
    0 ≤ (analyze message history metadata).confidence ∧
    (analyze message history metadata).confidence ≤ 1 ∧
    (analyze message history metadata).is_scam =
      (decide ((0.5 : ℚ) ≤ (analyze message history metadata).confidence) ||
       decide (3 ≤ (analyze message history metadata).indicators.length)) := by
  have h0 : 0 ≤ min (rawScore message (pyLower message) history) 1 :=
    le_min (rawScore_nonneg message (pyLower message) history) zero_le_one
  have h1 : min (rawScore message (pyLower message) history) 1 ≤ 1 :=
    min_le_right _ _
  rw [analyze_confidence, analyze_is_scam, analyze_indicators]
  exact ⟨h0, h1, rfl⟩

/-- Witness for C2 at a concrete input (the first end-to-end message). -/
theorem C2_analyze_confidence_and_threshold_witness :
    0 ≤ (analyze e2eText1 [] []).confidence ∧
    (analyze e2eText1 [] []).confidence ≤ 1 ∧
    (analyze e2eText1 [] []).is_scam =
      (decide ((0.5 : ℚ) ≤ (analyze e2eText1 [] []).confidence) ||
       decide (3 ≤ (analyze e2eText1 [] []).indicators.length)) :=
  C2_analyze_confidence_and_threshold e2eText1 [] []

set_option maxHeartbeats 1000000 in
/-- C3: `should_end_conversation` returns true exactly when (1) the message
count is ≥ 20, or (2) at least two of the four payment-intelligence sets are
non-empty and the message count is ≥ 12, or (3) the most recent counterpart
message among `recent_messages` contains one of the six fixed suspicion
phrases; consequently 11 messages with all four categories populated (and no
suspicion phrase) stay ACTIVE while 12 messages with the same intelligence
end the session. -/
theorem C3_termination_rule :
    (∀ (session : Session) (recentMessages : List Msg),
      shouldEndConversation session recentMessages = shouldEndSpecC3 session recentMessages) ∧
    shouldEndConversation c3Session11 [] = false ∧
    shouldEndConversation c3Session12 [] = true := by
  refine ⟨fun session recentMessages => ?_, by decide, by decide⟩
  simp only [shouldEndConversation, shouldEndSpecC3, latestCounterpartSuspicious,
    lastScammerTextLower]
  cases hm : recentMessages.reverse.find? (fun m => m.sender = "scammer".toList) <;>
  cases h1 : decide (0 < session.intelligence.upiIds.length) <;>
  cases h2 : decide (0 < session.intelligence.bankAccounts.length) <;>
  cases h3 : decide (0 < session.intelligence.phoneNumbers.length) <;>
  cases h4 : decide (0 < session.intelligence.phishingLinks.length) <;>
  cases h5 : decide (20 ≤ session.messages.length) <;>
  cases h6 : decide (12 ≤ session.messages.length) <;>
    simp_all

/-- Witness for C3 at a concrete input. -/
theorem C3_termination_rule_witness :
    shouldEndConversation c3Session12 [] = shouldEndSpecC3 c3Session12 [] :=
  C3_termination_rule.1 c3Session12 []

/-- C4 counterexample: at message count 3 (middle stage), a message
containing both a payment keyword ("payment") and "verify" is routed by the
verify/confirm rule, which the source checks first at that stage; every
possible outcome of `_determine_strategy` differs from
`request_payment_details`, refuting the claim that payment keywords win at
every message count. -/
theorem C4_counterexample :
    containsSub "payment".toList (pyLower "please verify the payment".toList) = true ∧
    determineStrategy "please verify the payment".toList 3 =
      ["play_along".toList, "request_verification".toList] ∧
    "request_payment_details".toList ∉ determineStrategy "please verify the payment".toList 3 ∧
    determineStrategy "please verify the payment".toList 3 ≠ [] := by
  refine ⟨by decide, by decide, by decide, by decide⟩

/-- C4 (amended): an incoming message containing a payment keyword selects
`request_payment_details` at the early stage (count ≤ 2), at the late stage
(count > 5), and at the middle stage provided the message contains neither
"verify" nor "confirm". -/
theorem C4_payment_triggers_amended (msg : List Char) (messageCount : Nat)
    (hpay : paymentTriggers.any (fun w => containsSub w (pyLower msg)) = true)
    (hstage : messageCount ≤ 2 ∨ 5 < messageCount ∨
      (["verify", "confirm"].map String.toList).any (fun w => containsSub w (pyLower msg)) = false) :
    determineStrategy msg messageCount = ["request_payment_details".toList] := by
  unfold determineStrategy
  rcases hstage with h | h | h
  · simp [h, hpay]
  · have h2 : ¬ (messageCount ≤ 2) := by omega
    have h5 : ¬ (messageCount ≤ 5) := by omega
    simp [h2, h5, hpay]
  · by_cases h2 : messageCount ≤ 2
    · simp [h2, hpay]
    · by_cases h5 : messageCount ≤ 5
      · simp at h
        simp [h2, h5, hpay, h]
      · simp [h2, h5, hpay]

/-- Witness for the amended C4 at a concrete input (a payment message at a
middle-stage count with no verify/confirm keyword). -/
theorem C4_payment_triggers_amended_witness :
    paymentTriggers.any (fun w => containsSub w (pyLower "send the payment now".toList)) = true ∧
    (["verify", "confirm"].map String.toList).any
      (fun w => containsSub w (pyLower "send the payment now".toList)) = false ∧
    determineStrategy "send the payment now".toList 4 = ["request_payment_details".toList] :=
  ⟨by decide, by decide,
   C4_payment_triggers_amended "send the payment now".toList 4 (by decide)
     (Or.inr (Or.inr (by decide)))⟩

/-- C6: the phone validator strips non-digits, discards candidates outside
10–15 digits, and normalizes: 12 digits starting "91" → "+91" + last 10;
11 digits starting "0" → "+91" + last 10; exactly 10 digits → "+91" + all;
otherwise "+" + digits.  In particular "9876543210" and "+919876543210" both
normalize to "+919876543210". -/
theorem C6_phone_normalization :
    (∀ candidate : List Char,
      cleanAndValidatePhones [candidate] = phoneNormSpecC6 candidate) ∧
    cleanAndValidatePhones ["9876543210".toList] = ["+919876543210".toList] ∧
    cleanAndValidatePhones ["+919876543210".toList] = ["+919876543210".toList] := by
  refine ⟨fun candidate => ?_, by decide, by decide⟩
  unfold cleanAndValidatePhones phoneNormSpecC6
  simp only [List.filterMap_cons, List.filterMap_nil]
  generalize candidate.filter Char.isDigit = d
  unfold formatPhone
  by_cases h10 : d.length < 10
  · have hn : ¬ (10 ≤ d.length ∧ d.length ≤ 15) := by omega
    simp [hn, h10]
  · by_cases h15 : 15 < d.length
    · have hn : ¬ (10 ≤ d.length ∧ d.length ≤ 15) := by omega
      simp [hn, h15, h10]
    · have hin : 10 ≤ d.length ∧ d.length ≤ 15 := by omega
      have hno : ¬ (d.length < 10 ∨ 15 < d.length) := by omega
      by_cases h12 : d.length = 12
      · by_cases h91 : ['9', '1'] <+: d
        · simp [hin, hno, h12, h91, lastN]
        · have hn11 : ¬ (d.length = 11) := by omega
          have hn10 : ¬ (d.length = 10) := by omega
          simp [hin, hno, h12, h91, hn11, hn10]
      · by_cases h11 : d.length = 11
        · by_cases h0 : ['0'] <+: d
          · simp [hin, hno, h12, h11, h0, lastN]
          · have hn10 : ¬ (d.length = 10) := by omega
            simp [hin, hno, h12, h11, h0, hn10]
        · by_cases hl10 : d.length = 10
          · simp [hin, hno, h12, h11, hl10]
          · simp [hin, hno, h12, h11, hl10]

/-- Witness for C6 at a concrete input. -/
theorem C6_phone_normalization_witness :
    cleanAndValidatePhones ["98765-43210".toList] = phoneNormSpecC6 "98765-43210".toList :=
  C6_phone_normalization.1 "98765-43210".toList

/-- C7: the account validator strips non-digits, discards candidates outside
9–18 digits, and masks: first 4 + '*'×(len−8) + last 4 when the length
exceeds 8 (always the case at 9–18 digits), else first 4 + '*'×(len−4).
In particular "123456789012" masks to "1234****9012". -/
theorem C7_account_masking :
    (∀ candidate : List Char,
      cleanAndValidateAccounts [candidate] = maskSpecC7 candidate) ∧
    cleanAndValidateAccounts ["123456789012".toList] = ["1234****9012".toList] := by
  refine ⟨fun candidate => ?_, by decide⟩
  unfold cleanAndValidateAccounts maskSpecC7
  simp only [List.filterMap_cons, List.filterMap_nil]
  generalize candidate.filter Char.isDigit = d
  unfold maskAccount
  by_cases h9 : d.length < 9
  · have hn : ¬ (9 ≤ d.length ∧ d.length ≤ 18) := by omega
    simp [hn, h9]
  · by_cases h18 : 18 < d.length
    · have hn : ¬ (9 ≤ d.length ∧ d.length ≤ 18) := by omega
      simp [hn, h18, h9]
    · have hin : 9 ≤ d.length ∧ d.length ≤ 18 := by omega
      have hno : ¬ (d.length < 9 ∨ 18 < d.length) := by omega
      by_cases h8 : 8 < d.length
      · simp [hin, hno, h8]
      · simp [hin, hno, h8]

/-- Witness for C7 at a concrete input. -/
theorem C7_account_masking_witness :
    cleanAndValidateAccounts ["0044 5566 7788 99".toList] =
      maskSpecC7 "0044 5566 7788 99".toList :=
  C7_account_masking.1 "0044 5566 7788 99".toList

set_option maxRecDepth 4000 in
/-- C1: refuted by the code — on the spec's five-message end-to-end
transcript the UPI scan does find "1234567890@paytm", and the literal
keyword scan does find "urgent", yet `extract` returns `upiIds = []` and a
`suspiciousKeywords` set without "urgent": the contextual pass is merged with
`dict.update`, whose dict carries all five keys, so it replaces the six typed
pattern-scan results instead of appending to them. -/
theorem C1_contextual_pass_overwrites_scans :
    (extract e2eConversation e2eText5).upiIds = [] ∧
    "1234567890@paytm".toList ∈
      cleanAndValidateUpi (upiFindAll (allTextOf e2eConversation e2eText5)) ∧
    containsSub "urgent".toList (pyLower (allTextOf e2eConversation e2eText5)) = true ∧
    "urgent".toList ∈ suspiciousKeywordList ∧
    "urgent".toList ∉ (extract e2eConversation e2eText5).suspiciousKeywords := by
  refine ⟨rfl, by decide, by decide, by decide, by decide⟩

/-- C8: `extract` is deterministic — it is a pure function of the
conversation and the latest message, so equal inputs give equal results
(and in particular equal values on each of the five sets). -/
theorem C8_extract_deterministic (conversation1 conversation2 : List Msg)
    (latest1 latest2 : List Char)
    (hc : conversation1 = conversation2) (hl : latest1 = latest2) :
    extract conversation1 latest1 = extract conversation2 latest2 ∧
    (extract conversation1 latest1).bankAccounts = (extract conversation2 latest2).bankAccounts ∧
    (extract conversation1 latest1).upiIds = (extract conversation2 latest2).upiIds ∧
    (extract conversation1 latest1).phishingLinks = (extract conversation2 latest2).phishingLinks ∧
    (extract conversation1 latest1).phoneNumbers = (extract conversation2 latest2).phoneNumbers ∧
    (extract conversation1 latest1).suspiciousKeywords =
      (extract conversation2 latest2).suspiciousKeywords := by
  subst hc
  subst hl
  exact ⟨rfl, rfl, rfl, rfl, rfl, rfl⟩

/-- Witness for C8 at a concrete input (two syntactically identical calls on
the end-to-end transcript). -/
theorem C8_extract_deterministic_witness :
    extract e2eConversation e2eText5 = extract e2eConversation e2eText5 :=
  (C8_extract_deterministic e2eConversation e2eConversation e2eText5 e2eText5 rfl rfl).1

/-- C5: across successive `handle_message` calls on the same session, each of
the five session intelligence sets only ever gains elements (the post-call
set contains the pre-call set) and is duplicate-free after every call. -/
theorem C5_intelligence_monotone_and_dedup (session : Session) (req : Request)
    (reply now : List Char) :
    session.intelligence.bankAccounts ⊆
      (handleMessageSession session req reply now).1.intelligence.bankAccounts ∧
    session.intelligence.upiIds ⊆
      (handleMessageSession session req reply now).1.intelligence.upiIds ∧
    session.intelligence.phishingLinks ⊆
      (handleMessageSession session req reply now).1.intelligence.phishingLinks ∧
    session.intelligence.phoneNumbers ⊆
      (handleMessageSession session req reply now).1.intelligence.phoneNumbers ∧
    session.intelligence.suspiciousKeywords ⊆
      (handleMessageSession session req reply now).1.intelligence.suspiciousKeywords ∧
    (handleMessageSession session req reply now).1.intelligence.bankAccounts.Nodup ∧
    (handleMessageSession session req reply now).1.intelligence.upiIds.Nodup ∧
    (handleMessageSession session req reply now).1.intelligence.phishingLinks.Nodup ∧
    (handleMessageSession session req reply now).1.intelligence.phoneNumbers.Nodup ∧
    (handleMessageSession session req reply now).1.intelligence.suspiciousKeywords.Nodup := by
  rw [hms_intelligence session req reply now]
  unfold updateIntelligence
  exact ⟨subset_pySet_append_left _ _, subset_pySet_append_left _ _,
    subset_pySet_append_left _ _, subset_pySet_append_left _ _,
    subset_pySet_append_left _ _, nodup_pySet _, nodup_pySet _, nodup_pySet _,
    nodup_pySet _, nodup_pySet _⟩

/-- Witness for C5 at a concrete input (a session holding one UPI id, fed a
message carrying a second one). -/
theorem C5_intelligence_monotone_and_dedup_witness :
    c3Session11.intelligence.upiIds ⊆
      (handleMessageSession c3Session11 wRequest "ok".toList "t9".toList).1.intelligence.upiIds ∧
    (handleMessageSession c3Session11 wRequest "ok".toList
      "t9".toList).1.intelligence.upiIds.Nodup :=
  ⟨(C5_intelligence_monotone_and_dedup c3Session11 wRequest "ok".toList "t9".toList).2.1,
   (C5_intelligence_monotone_and_dedup c3Session11 wRequest "ok".toList
     "t9".toList).2.2.2.2.2.2.1⟩

/-- C9: deleting an absent session id yields a reportable 404 and leaves the
store unchanged; deleting a present id succeeds and removes exactly that
session. -/
theorem C9_delete_session_not_found (store : Store) (sessionId : List Char) :
    (store sessionId = none →
      deleteSession store sessionId =
        (Except.error ⟨404, "Session not found".toList⟩, store)) ∧
    (∀ s, store sessionId = some s →
      (deleteSession store sessionId).1 =
        Except.ok ("Session ".toList ++ sessionId ++ " deleted".toList) ∧
      (deleteSession store sessionId).2 sessionId = none ∧
      ∀ key, key ≠ sessionId → (deleteSession store sessionId).2 key = store key) := by
  constructor
  · intro h
    simp [deleteSession, h]
  · intro s h
    refine ⟨?_, ?_, ?_⟩
    · simp [deleteSession, h]
    · simp [deleteSession, h]
    · intro key hk
      simp [deleteSession, h, hk]

/-- Witness for C9 at a concrete store holding exactly the id "s1". -/
theorem C9_delete_session_not_found_witness :
    deleteSession c9Store "zz".toList =
      (Except.error ⟨404, "Session not found".toList⟩, c9Store) ∧
    (deleteSession c9Store "s1".toList).2 "s1".toList = none ∧
    (deleteSession c9Store "s1".toList).2 "s2".toList = c9Store "s2".toList :=
  ⟨(C9_delete_session_not_found c9Store "zz".toList).1 rfl,
   ((C9_delete_session_not_found c9Store "s1".toList).2 (initSession "t0".toList) rfl).2.1,
   (((C9_delete_session_not_found c9Store "s1".toList).2 (initSession "t0".toList) rfl).2.2
     "s2".toList (by decide))⟩

/-- C10: after every `handle_message` call, the session's `scam_detected` and
`confidence_score` equal the classification of that call's incoming message
alone; concretely, a session previously marked scam-detected has
`scam_detected` overwritten to false by a later benign message, so the field
is not monotone over the session's lifetime. -/
theorem C10_classification_overwritten :
    (∀ (session : Session) (req : Request) (reply now : List Char),
      (handleMessageSession session req reply now).1.scam_detected =
        (analyze req.message.text (req.conversationHistory.map (fun m => m.text))
          req.metadata).is_scam ∧
      (handleMessageSession session req reply now).1.confidence_score =
        (analyze req.message.text (req.conversationHistory.map (fun m => m.text))
          req.metadata).confidence) ∧
    c10Session.scam_detected = true ∧
    (handleMessageSession c10Session c10Request "ok".toList "t3".toList).1.scam_detected =
      false := by
  refine ⟨fun session req reply now => hms_scam_fields session req reply now, rfl, ?_⟩
  rw [(hms_scam_fields c10Session c10Request "ok".toList "t3".toList).1]
  have hmsg : c10Request.message.text = "hello".toList := rfl
  have hhist : c10Request.conversationHistory.map (fun m => m.text) = [e2eText1] := rfl
  rw [hmsg, hhist, analyze_is_scam]
  have h1 : countHits urgencyKeywords (pyLower "hello".toList) = 0 := by decide
  have h2 : countHits threatKeywords (pyLower "hello".toList) = 0 := by decide
  have h3 : countHits requestKeywords (pyLower "hello".toList) = 0 := by decide
  have h4 : countHits financialKeywords (pyLower "hello".toList) = 0 := by decide
  have h5 : countHits impersonationKeywords (pyLower "hello".toList) = 0 := by decide
  have hurl : containsUrlSignal "hello".toList = false := by decide
  have hsens : sensitivePatterns.any (fun p => containsSub p (pyLower "hello".toList)) = false := by
    decide
  have hgram : hasPoorGrammar "hello".toList = false := by decide
  have hhist2 : ([e2eText1] : List (List Char)).isEmpty = false := rfl
  simp only [rawScore, indicatorsOf, h1, h2, h3, h4, h5, hurl, hsens, hgram, hhist2,
    contrib, flagScore, Bool.false_and, if_false, Bool.false_eq_true, if_neg, List.length_nil]
  norm_num

/-- Witness for C10 at a concrete input. -/
theorem C10_classification_overwritten_witness :
    (handleMessageSession c10Session c10Request "ok".toList "t3".toList).1.scam_detected =
      (analyze c10Request.message.text
        (c10Request.conversationHistory.map (fun m => m.text)) c10Request.metadata).is_scam :=
  (C10_classification_overwritten.1 c10Session c10Request "ok".toList "t3".toList).1

end HoneyPot
